import Mathlib

/-!
Verification development for a BMI-calculator application (`bmic.py`).

The application records body-mass-index measurements per named user in an
in-memory store (a mapping from user name to an ordered list of
measurements), persists the whole store to a JSON file on each mutation,
and classifies each BMI value with a linear scan of a boundary table.

Numbers are modelled as rationals (`ℚ`); every decimal literal of the
source is exact in `ℚ`.  `round(x, 2)` is modelled as rounding
`x * 100` to the nearest integer and dividing by `100`; the tie-breaking
of Python's `round` on binary floats differs from rounding on `ℚ` only
at exact half-hundredths, which no property below exercises.
The Python dict is modelled as an association list in insertion order,
which is exactly the iteration order the source relies on.
-/

/-- The ordered boundary table `BMI_CATEGORIES` (lines 10-15 of the
source): `(lower, upper, category)` triples scanned in order. -/
def BMI_CATEGORIES : List (ℚ × ℚ × String) :=
  [(0, 18.5, "Underweight"),
   (18.5, 24.9, "Normal weight"),
   (25, 29.9, "Overweight"),
   (30, 100, "Obese")]

/-- The loop body of `classify_bmi`: scan the table, return the category
of the first triple whose inclusive range contains `bmi`. -/
def classifyScan (bmi : ℚ) : List (ℚ × ℚ × String) → String
  | [] => "Unknown"
  | (lower, upper, category) :: rest =>
    if lower ≤ bmi ∧ bmi ≤ upper then category else classifyScan bmi rest

/-- `classify_bmi` (lines 31-35): first matching inclusive range of
`BMI_CATEGORIES`, else `"Unknown"`. -/
def classify_bmi (bmi : ℚ) : String :=
  classifyScan bmi BMI_CATEGORIES

/-- `round(x, 2)` of the source, on rationals: round `x * 100` to the
nearest integer and divide by `100`. -/
def roundTo2 (x : ℚ) : ℚ :=
  ((round (x * 100) : ℤ) : ℚ) / 100

/-- `calculate_bmi` (lines 28-29): `round(weight / (height ** 2), 2)`. -/
def calculate_bmi (weight height : ℚ) : ℚ :=
  roundTo2 (weight / height ^ 2)

/-- The height-unit conversion block of `BMICalculatorApp.calculate_bmi`
(lines 92-100): `cm` divides by 100, `ft` multiplies by 0.3048, `in`
multiplies by 0.0254, `m` is the identity, anything else raises
`ValueError("Invalid height unit selected.")`. -/
def toMeters (value : ℚ) (unit : String) : Except String ℚ :=
  if unit = "cm" then .ok (value / 100)
  else if unit = "ft" then .ok (value * 0.3048)
  else if unit = "in" then .ok (value * 0.0254)
  else if unit = "m" then .ok value
  else .error "Invalid height unit selected."

/-- Python's `str.strip()` with no argument, as used on the user-name
field: drop leading and trailing whitespace characters. -/
def pyStrip (s : String) : String :=
  ⟨((s.data.dropWhile Char.isWhitespace).reverse.dropWhile Char.isWhitespace).reverse⟩

/-- One stored record: `{"date": ..., "bmi": ..., "category": ...}`
(line 110 of the source). -/
structure Measurement where
  date : String
  bmi : ℚ
  category : String
  deriving DecidableEq

/-- The store: a mapping from user name to that user's ordered list of
measurements, in insertion order (a Python dict of lists). -/
abbrev Store := List (String × List Measurement)

/-- Dict membership and lookup: first binding of the user name, if any. -/
def lookupUser (u : String) : Store → Option (List Measurement)
  | [] => none
  | (v, l) :: rest => if v = u then some l else lookupUser u rest

/-- Lookup with the empty-list default, as produced by
`setdefault(user, [])`. -/
def lookupD (u : String) (s : Store) : List Measurement :=
  (lookupUser u s).getD []

/-- `store.setdefault(u, []).extend(es)` (and, for a one-element `es`,
`append`): extend the existing binding in place, or add a new binding at
the end of the dict. -/
def extendUser : Store → String → List Measurement → Store
  | [], u, es => [(u, es)]
  | (v, l) :: rest, u, es =>
    if v = u then (v, l ++ es) :: rest else (v, l) :: extendUser rest u es

/-- Application state: `data` is the in-memory store `self.data`; `file`
is the content of the data file, rewritten by every `save_data` call. -/
structure AppState where
  data : Store
  file : Store
  deriving DecidableEq

/-- JSON values, for the persistence boundary of `load_data`. -/
inductive Json where
  | null
  | bool (b : Bool)
  | num (q : ℚ)
  | str (s : String)
  | arr (elems : List Json)
  | obj (fields : List (String × Json))

/-- `load_data` (lines 18-22): if the file is absent, return the empty
object; otherwise return whatever `json.load` produces.  The file
content is abstracted as the outcome of JSON parsing: `json.load`
raises exactly when the text is not valid JSON, and otherwise returns
the parsed value of any shape — the source performs no shape check. -/
def load_data (file : Option (Except String Json)) : Except String Json :=
  match file with
  | none => .ok (.obj [])
  | some r => r

/-- `BMICalculatorApp.calculate_bmi` (lines 80-114) after the two
`float(...)` parses: strip the user name, validate it and the weight,
convert the height with `toMeters`, validate the converted height, then
compute the BMI, classify it, append the new measurement to the user's
list and save the whole store.  A raised `ValueError` is caught at the
end of the method, so on error the state is returned unchanged together
with the message; on success the result pair `(bmi, category)` is what
the result label displays. -/
def calculate_bmi_action (st : AppState) (usernameRaw : String) (weight height : ℚ)
    (unit now : String) : AppState × Except String (ℚ × String) :=
  let username := pyStrip usernameRaw
  if username = "" then (st, .error "User name is required.")
  else if ¬(30 ≤ weight ∧ weight ≤ 300) then (st, .error "Weight out of range (30-300 kg).")
  else
    match toMeters height unit with
    | .error e => (st, .error e)
    | .ok hm =>
      if ¬((1 : ℚ) ≤ hm ∧ hm ≤ 2.5) then
        (st, .error "Height out of range (1.0-2.5 m after conversion).")
      else
        let bmi := calculate_bmi weight hm
        let category := classify_bmi bmi
        let entry : Measurement := ⟨now, bmi, category⟩
        let newData := extendUser st.data username [entry]
        (⟨newData, newData⟩, .ok (bmi, category))

/-- Output of the View History action: either the no-data message box or
the rows of the history table. -/
inductive ViewOutput where
  | noData
  | table (rows : List (String × ℚ × String))

/-- `view_history` (lines 116-131): strip the user name; if it is empty
or absent from the store, show the no-data message; otherwise render one
row `(date, bmi, category)` per measurement, in record order. -/
def view_history (st : AppState) (usernameRaw : String) : AppState × ViewOutput :=
  let username := pyStrip usernameRaw
  if username = "" ∨ lookupUser username st.data = none then (st, ViewOutput.noData)
  else (st, ViewOutput.table ((lookupD username st.data).map fun e => (e.date, e.bmi, e.category)))

/-- Output of the Show Trend action: either the no-data message box or
the plotted `(dates, bmis)` series. -/
inductive TrendOutput where
  | noData
  | plot (dates : List String) (bmis : List ℚ)

/-- `show_trend` (lines 133-149): strip the user name; if it is empty or
absent from the store, show the no-data message; otherwise plot the
dates against the BMI values, in record order. -/
def show_trend (st : AppState) (usernameRaw : String) : AppState × TrendOutput :=
  let username := pyStrip usernameRaw
  if username = "" ∨ lookupUser username st.data = none then (st, TrendOutput.noData)
  else
    (st, TrendOutput.plot ((lookupD username st.data).map Measurement.date)
      ((lookupD username st.data).map Measurement.bmi))

/-- `export_data` (lines 151-156): the exported file holds the
serialization of the whole in-memory store. -/
def export_data (st : AppState) : Store :=
  st.data

/-- The merge loop of `import_data` (lines 164-165): for each user of
the imported file, in order, `self.data.setdefault(user, []).extend(entries)`. -/
def mergeImport (data imported : Store) : Store :=
  imported.foldl (fun acc p => extendUser acc p.1 p.2) data

/-- `import_data` (lines 158-169): merge the imported store into the
in-memory store, then `save_data` the result. -/
def import_data (st : AppState) (fileContent : Store) : AppState :=
  let newData := mergeImport st.data fileContent
  ⟨newData, newData⟩

/-- Boolean test for the error constructor of `Except`. -/
def isErr {ε α : Type} : Except ε α → Bool
  | .error _ => true
  | .ok _ => false

theorem toMeters_m (v : ℚ) : toMeters v "m" = Except.ok v := rfl

theorem toMeters_cm (v : ℚ) : toMeters v "cm" = Except.ok (v / 100) := rfl

theorem toMeters_ft (v : ℚ) : toMeters v "ft" = Except.ok (v * 0.3048) := rfl

theorem toMeters_in (v : ℚ) : toMeters v "in" = Except.ok (v * 0.0254) := rfl

theorem lookupD_extendUser_self (s : Store) (u : String) (es : List Measurement) :
    lookupD u (extendUser s u es) = lookupD u s ++ es := by
  induction s with
  | nil => simp [extendUser, lookupD, lookupUser]
  | cons p rest ih =>
    obtain ⟨v, l⟩ := p
    by_cases h : v = u
    · simp [extendUser, h, lookupD, lookupUser]
    · simpa [extendUser, h, lookupD, lookupUser] using ih

theorem lookupD_extendUser_ne (s : Store) (u v : String) (es : List Measurement)
    (h : u ≠ v) : lookupD u (extendUser s v es) = lookupD u s := by
  induction s with
  | nil => simp [extendUser, lookupD, lookupUser, Ne.symm h]
  | cons p rest ih =>
    obtain ⟨w, l⟩ := p
    by_cases hw : w = v
    · subst hw
      simp [extendUser, lookupD, lookupUser, Ne.symm h]
    · by_cases hu : w = u
      · simp [extendUser, hw, lookupD, lookupUser, hu, h]
      · simpa [extendUser, hw, lookupD, lookupUser, hu] using ih

theorem lookupD_mergeImport_prefix (imported data : Store) (u : String) :
    lookupD u data <+: lookupD u (mergeImport data imported) := by
  induction imported generalizing data with
  | nil => exact List.prefix_refl _
  | cons p rest ih =>
    have hstep : lookupD u data <+: lookupD u (extendUser data p.1 p.2) := by
      by_cases h : u = p.1
      · subst h
        rw [lookupD_extendUser_self]
        exact List.prefix_append _ _
      · rw [lookupD_extendUser_ne _ _ _ _ h]
    have hfold : mergeImport data (p :: rest) = mergeImport (extendUser data p.1 p.2) rest := rfl
    rw [hfold]
    exact hstep.trans (ih _)

theorem roundTo2_nonneg {x : ℚ} (hx : 0 ≤ x) : 0 ≤ roundTo2 x := by
  unfold roundTo2
  have hr : (0 : ℤ) ≤ round (x * 100) := by
    rw [round_eq]
    exact Int.floor_nonneg.mpr (by linarith)
  have : (0 : ℚ) ≤ ((round (x * 100) : ℤ) : ℚ) := by exact_mod_cast hr
  linarith

/-- C1: `classify_bmi` scans the ordered boundary table and returns the
category of the first inclusive range containing the value, so 18.5 is
Underweight, 18.51 and 24.9 are Normal weight, 25 and 29.9 are
Overweight, and 30 is Obese. -/
theorem classify_bmi_values :
    classify_bmi 18.5 = "Underweight" ∧ classify_bmi 18.51 = "Normal weight" ∧
    classify_bmi 24.9 = "Normal weight" ∧ classify_bmi 25 = "Overweight" ∧
    classify_bmi 29.9 = "Overweight" ∧ classify_bmi 30 = "Obese" := by
  refine ⟨?_, ?_, ?_, ?_, ?_, ?_⟩ <;>
    norm_num [classify_bmi, BMI_CATEGORIES, classifyScan]

/-- C2 counterexample: weight 300 kg and height 1.0 m are inside the
validated ranges, yet the computed BMI is 300, which matches no range of
the table, so the classification falls through to `"Unknown"`. -/
theorem classify_unknown_reachable :
    (30 : ℚ) ≤ 300 ∧ (300 : ℚ) ≤ 300 ∧ (1 : ℚ) ≤ 1 ∧ (1 : ℚ) ≤ 2.5 ∧
    classify_bmi (calculate_bmi 300 1) = "Unknown" := by
  norm_num [calculate_bmi, roundTo2, classify_bmi, BMI_CATEGORIES, classifyScan]

/-- C2 corrected: for weights in [30,300] and heights in [1.0,2.5] the
fallback of the classification scan IS reachable; `classify_bmi` of the
computed BMI returns `"Unknown"` exactly when the rounded BMI lies in
one of the uncovered gaps (24.9, 25) or (29.9, 30) of the table, or
exceeds its upper bound 100. -/
theorem classify_calculate_unknown_iff (w h : ℚ) (hw1 : 30 ≤ w) (hw2 : w ≤ 300)
    (hh1 : 1 ≤ h) (hh2 : h ≤ 2.5) :
    classify_bmi (calculate_bmi w h) = "Unknown" ↔
      (24.9 < calculate_bmi w h ∧ calculate_bmi w h < 25) ∨
      (29.9 < calculate_bmi w h ∧ calculate_bmi w h < 30) ∨
      100 < calculate_bmi w h := by
  have hb : 0 ≤ calculate_bmi w h := by
    apply roundTo2_nonneg
    apply div_nonneg (by linarith)
    positivity
  set b := calculate_bmi w h with hbdef
  simp only [classify_bmi, BMI_CATEGORIES, classifyScan]
  split_ifs with h1 h2 h3 h4
  · refine iff_of_false (by decide) ?_
    rintro (⟨hc, _⟩ | ⟨hc, _⟩ | hc) <;> linarith [h1.2]
  · refine iff_of_false (by decide) ?_
    rintro (⟨hc, _⟩ | ⟨hc, _⟩ | hc) <;> linarith [h2.2]
  · refine iff_of_false (by decide) ?_
    rintro (⟨hc, hc2⟩ | ⟨hc, hc2⟩ | hc) <;> linarith [h3.1, h3.2]
  · refine iff_of_false (by decide) ?_
    rintro (⟨hc, hc2⟩ | ⟨hc, hc2⟩ | hc) <;> linarith [h4.1, h4.2]
  · push_neg at h1 h2 h3 h4
    refine iff_of_true rfl ?_
    have hb1 : 18.5 < b := h1 hb
    have hb2 : 24.9 < b := h2 (by linarith)
    by_cases hc : b < 25
    · exact Or.inl ⟨hb2, hc⟩
    · have hb3 : 29.9 < b := h3 (by linarith [not_lt.mp hc])
      by_cases hd : b < 30
      · exact Or.inr (Or.inl ⟨hb3, hd⟩)
      · have hb4 : 100 < b := h4 (by linarith [not_lt.mp hd])
        exact Or.inr (Or.inr hb4)

theorem classify_calculate_unknown_iff_witness :
    classify_bmi (calculate_bmi 300 1) = "Unknown" :=
  (classify_calculate_unknown_iff 300 1 (by norm_num) (by norm_num) (by norm_num)
    (by norm_num)).mpr
    (Or.inr (Or.inr (by norm_num [calculate_bmi, roundTo2])))

/-- C3 counterexample: a store file whose content is valid JSON but a
JSON array does not fail: `json.load` parses it and `load_data` returns
the array, which becomes the in-memory store. -/
theorem load_data_array_no_error :
    load_data (some (Except.ok (Json.arr [Json.num 1]))) =
      Except.ok (Json.arr [Json.num 1]) := rfl

/-- C3 corrected: `load_data` performs no shape validation at all.  Any
valid JSON value — object or not — is returned as the store; only
invalid JSON text fails, with the parser's error propagated unswallowed;
an absent file yields the empty object. -/
theorem load_data_behavior :
    (∀ j : Json, load_data (some (Except.ok j)) = Except.ok j) ∧
    (∀ e : String, load_data (some (Except.error e)) = Except.error e) ∧
    load_data none = Except.ok (Json.obj []) :=
  ⟨fun _ => rfl, fun _ => rfl, rfl⟩

/-- C4: when the height unit converts successfully (which every combobox
unit does), the Calculate action fails exactly when the stripped user
name is empty, the weight is outside [30, 300], or the converted height
is outside [1.0, 2.5]; every failure carries a human-readable message.
Concretely, weight 29.9 is rejected, weight 30 is accepted, and a
post-conversion height of 2.51 m is rejected. -/
theorem calculate_validation_iff :
    (∀ (st : AppState) (name : String) (w hgt : ℚ) (unit now : String) (hm : ℚ),
      toMeters hgt unit = Except.ok hm →
      (isErr (calculate_bmi_action st name w hgt unit now).2 = true ↔
        pyStrip name = "" ∨ ¬(30 ≤ w ∧ w ≤ 300) ∨ ¬((1 : ℚ) ≤ hm ∧ hm ≤ 2.5))) ∧
    (calculate_bmi_action ⟨[], []⟩ "bob" 29.9 2 "m" "t").2 =
      Except.error "Weight out of range (30-300 kg)." ∧
    isErr (calculate_bmi_action ⟨[], []⟩ "bob" 30 2 "m" "t").2 = false ∧
    (calculate_bmi_action ⟨[], []⟩ "bob" 70 2.51 "m" "t").2 =
      Except.error "Height out of range (1.0-2.5 m after conversion)." := by
  have hbob : pyStrip "bob" = "bob" := by decide
  refine ⟨?_, ?_, ?_, ?_⟩
  · intro st name w hgt unit now hm hconv
    simp only [calculate_bmi_action, hconv]
    by_cases h1 : pyStrip name = ""
    · rw [if_pos h1]
      exact iff_of_true rfl (Or.inl h1)
    · rw [if_neg h1]
      by_cases h2 : 30 ≤ w ∧ w ≤ 300
      · rw [if_neg (not_not_intro h2)]
        by_cases h3 : (1 : ℚ) ≤ hm ∧ hm ≤ 2.5
        · rw [if_neg (not_not_intro h3)]
          refine iff_of_false (by simp [isErr]) ?_
          rintro (hc | hc | hc) <;> contradiction
        · rw [if_pos h3]
          exact iff_of_true rfl (Or.inr (Or.inr h3))
      · rw [if_pos h2]
        exact iff_of_true rfl (Or.inr (Or.inl h2))
  · simp [calculate_bmi_action, hbob, toMeters_m]
    norm_num
  · simp [calculate_bmi_action, hbob, toMeters_m, isErr]
    norm_num
  · simp [calculate_bmi_action, hbob, toMeters_m]
    norm_num

theorem calculate_validation_iff_witness :
    isErr (calculate_bmi_action ⟨[], []⟩ "" 70 2 "m" "t").2 = true :=
  (calculate_validation_iff.1 ⟨[], []⟩ "" 70 2 "m" "t" 2 (toMeters_m 2)).mpr
    (Or.inl (by decide))

/-- C5: the unit conversion divides by 100 for cm, multiplies by 0.3048
for ft, multiplies by 0.0254 for in, is the identity for m, and fails
with the invalid-unit error for any other unit; concretely 100 cm is
1.0 m, 6 ft is 1.8288 m, and 70 in is 1.778 m. -/
theorem toMeters_spec :
    toMeters 100 "cm" = Except.ok 1 ∧
    toMeters 6 "ft" = Except.ok 1.8288 ∧
    toMeters 70 "in" = Except.ok 1.778 ∧
    (∀ v : ℚ, toMeters v "m" = Except.ok v ∧ toMeters v "cm" = Except.ok (v / 100) ∧
      toMeters v "ft" = Except.ok (v * 0.3048) ∧ toMeters v "in" = Except.ok (v * 0.0254)) ∧
    (∀ (v : ℚ) (u : String), u ≠ "m" → u ≠ "cm" → u ≠ "ft" → u ≠ "in" →
      toMeters v u = Except.error "Invalid height unit selected.") := by
  refine ⟨?_, ?_, ?_,
    fun v => ⟨toMeters_m v, toMeters_cm v, toMeters_ft v, toMeters_in v⟩,
    fun v u h1 h2 h3 h4 => ?_⟩
  · rw [toMeters_cm]
    norm_num
  · rw [toMeters_ft]
    norm_num
  · rw [toMeters_in]
    norm_num
  · simp [toMeters, h1, h2, h3, h4]

theorem toMeters_spec_witness :
    toMeters 5 "km" = Except.error "Invalid height unit selected." :=
  toMeters_spec.2.2.2.2 5 "km" (by decide) (by decide) (by decide) (by decide)

/-- C6: for weights in [30, 300] and heights in [1.0, 2.5] metres, the
computed BMI is the weight divided by the squared height, rounded to two
decimal places, and it is strictly positive. -/
theorem calculate_bmi_formula_pos (w h : ℚ) (hw1 : 30 ≤ w) (hw2 : w ≤ 300)
    (hh1 : 1 ≤ h) (hh2 : h ≤ 2.5) :
    calculate_bmi w h = ((round (w / h ^ 2 * 100) : ℤ) : ℚ) / 100 ∧
    0 < calculate_bmi w h := by
  refine ⟨rfl, ?_⟩
  unfold calculate_bmi roundTo2
  have hh0 : (0 : ℚ) < h := by linarith
  have hsq : h ^ 2 ≤ 25 / 4 := by nlinarith
  have hsq0 : (0 : ℚ) < h ^ 2 := by positivity
  have hx : (24 / 5 : ℚ) ≤ w / h ^ 2 := by
    rw [le_div_iff₀ hsq0]
    nlinarith
  have hr : (480 : ℤ) ≤ round (w / h ^ 2 * 100) := by
    rw [round_eq]
    refine Int.le_floor.mpr ?_
    push_cast
    linarith
  have hrq : (480 : ℚ) ≤ ((round (w / h ^ 2 * 100) : ℤ) : ℚ) := by exact_mod_cast hr
  linarith

theorem calculate_bmi_formula_pos_witness : 0 < calculate_bmi 70 1 :=
  (calculate_bmi_formula_pos 70 1 (by norm_num) (by norm_num) (by norm_num) (by norm_num)).2

/-- C7: importing an exported store into any store appends: every user's
pre-import measurement sequence is a prefix of that user's post-import
sequence, in order. -/
theorem export_import_round_trip (src dst : AppState) (u : String) :
    lookupD u dst.data <+: lookupD u (import_data dst (export_data src)).data :=
  lookupD_mergeImport_prefix (export_data src) dst.data u

/-- C8: every measurement created by a successful Calculate action is
consistent at creation time: the user's list is extended by exactly one
record whose bmi field is `calculate_bmi` of the validated weight and
converted height and whose category field is `classify_bmi` of that
bmi. -/
theorem calculate_measurement_consistent (st : AppState) (name : String) (w hgt : ℚ)
    (unit now : String) (hm : ℚ) (st' : AppState) (r : ℚ × String)
    (hconv : toMeters hgt unit = Except.ok hm)
    (hrun : calculate_bmi_action st name w hgt unit now = (st', Except.ok r)) :
    lookupD (pyStrip name) st'.data =
      lookupD (pyStrip name) st.data ++
        [⟨now, calculate_bmi w hm, classify_bmi (calculate_bmi w hm)⟩] := by
  simp only [calculate_bmi_action, hconv] at hrun
  by_cases h1 : pyStrip name = ""
  · rw [if_pos h1] at hrun
    exact absurd (congrArg Prod.snd hrun) (by simp)
  · rw [if_neg h1] at hrun
    by_cases h2 : 30 ≤ w ∧ w ≤ 300
    · rw [if_neg (not_not_intro h2)] at hrun
      by_cases h3 : (1 : ℚ) ≤ hm ∧ hm ≤ 2.5
      · rw [if_neg (not_not_intro h3)] at hrun
        injection hrun with hst hr
        rw [← hst]
        exact lookupD_extendUser_self _ _ _
      · rw [if_pos h3] at hrun
        exact absurd (congrArg Prod.snd hrun) (by simp)
    · rw [if_pos h2] at hrun
      exact absurd (congrArg Prod.snd hrun) (by simp)

theorem calculate_measurement_consistent_witness :
    lookupD (pyStrip "bob")
        (AppState.data ⟨[("bob", [⟨"t", 70, "Obese"⟩])], [("bob", [⟨"t", 70, "Obese"⟩])]⟩) =
      lookupD (pyStrip "bob") (AppState.data ⟨[], []⟩) ++
        [⟨"t", calculate_bmi 70 1, classify_bmi (calculate_bmi 70 1)⟩] := by
  have hbob : pyStrip "bob" = "bob" := by decide
  have hbmi : calculate_bmi 70 1 = 70 := by norm_num [calculate_bmi, roundTo2]
  have hcat : classify_bmi (70 : ℚ) = "Obese" := by
    norm_num [classify_bmi, BMI_CATEGORIES, classifyScan]
  refine calculate_measurement_consistent ⟨[], []⟩ "bob" 70 1 "m" "t" 1
    ⟨[("bob", [⟨"t", 70, "Obese"⟩])], [("bob", [⟨"t", 70, "Obese"⟩])]⟩ (70, "Obese")
    (toMeters_m 1) ?_
  simp [calculate_bmi_action, hbob, toMeters_m]
  norm_num [extendUser, hbmi, hcat]

/-- C9: when the Calculate action fails with a validation error, the
in-memory store and the data file are exactly as before the action:
every validation runs before the append and the save. -/
theorem calculate_error_frame (st : AppState) (name : String) (w hgt : ℚ)
    (unit now : String) (st' : AppState) (e : String)
    (hrun : calculate_bmi_action st name w hgt unit now = (st', Except.error e)) :
    st' = st := by
  simp only [calculate_bmi_action] at hrun
  by_cases h1 : pyStrip name = ""
  · rw [if_pos h1] at hrun
    exact (congrArg Prod.fst hrun).symm
  · rw [if_neg h1] at hrun
    by_cases h2 : 30 ≤ w ∧ w ≤ 300
    · rw [if_neg (not_not_intro h2)] at hrun
      rcases htm : toMeters hgt unit with e' | hm
      · simp only [htm] at hrun
        exact (congrArg Prod.fst hrun).symm
      · simp only [htm] at hrun
        by_cases h3 : (1 : ℚ) ≤ hm ∧ hm ≤ 2.5
        · rw [if_neg (not_not_intro h3)] at hrun
          exact absurd (congrArg Prod.snd hrun) (by simp)
        · rw [if_pos h3] at hrun
          exact (congrArg Prod.fst hrun).symm
    · rw [if_pos h2] at hrun
      exact (congrArg Prod.fst hrun).symm

theorem calculate_error_frame_witness : (⟨[], []⟩ : AppState) = ⟨[], []⟩ :=
  calculate_error_frame ⟨[], []⟩ "" 70 1 "m" "t" ⟨[], []⟩ "User name is required." rfl

/-- C10: View History and Show Trend are read-only: for every state and
user-name input they leave the in-memory store and the data file
unchanged. -/
theorem view_history_show_trend_readonly (st : AppState) (name : String) :
    (view_history st name).1 = st ∧ (show_trend st name).1 = st := by
  constructor <;> simp only [view_history, show_trend] <;> split <;> rfl
